import Mathlib

set_option maxHeartbeats 1000000

/- Shallow embedding of the core of cherrylink/nezha:
   - agent authentication and auto-provisioning (service/rpc/auth.go, authHandler.Check);
   - the fallback Geo/ASN lookup cache and its global rate limiter
     (package geoip, ip-api fallback path in the same source bundle);
   - the live-view broadcaster and its snapshot computation
     (cmd/dashboard/controller/ws.go, serverStream / getServerStat).
   Machine strings are Lean strings; Go len(string) is modelled by
   String.utf8ByteSize (Go len is the UTF-8 byte count). -/

/-- strings.TrimSpace: drop leading and trailing whitespace characters,
as applied by Check to every metadata value before use. -/
def trimSpace (s : String) : String :=
  ⟨((s.data.dropWhile Char.isWhitespace).reverse.dropWhile Char.isWhitespace).reverse⟩

/-- model.User roles: RoleAdmin and ordinary users (auth.go line 88). -/
inductive Role where
  | ordinary
  | admin
deriving DecidableEq, Repr

/-- model.ServerGroup row: primary key, name, owning user (auth.go lines 80-81). -/
structure SGroup where
  id : Nat
  name : String
  userId : Nat
deriving DecidableEq, Repr

/-- model.Server row as created by Check (auth.go lines 109-115): id assigned
by the database on Create, the client UUID, the display name, the owner. -/
structure SRecord where
  id : Nat
  uuid : String
  name : String
  userId : Nat
deriving DecidableEq, Repr

/-- model.ServerGroupServer membership row (auth.go lines 126-132). -/
structure GMembership where
  userId : Nat
  serverGroupId : Nat
  serverId : Nat
deriving DecidableEq, Repr

/-- The gRPC metadata keys Check reads; each is the first value of the key
when present (auth.go lines 30, 52, 65, 76). -/
structure Metadata where
  clientSecret : Option String
  clientUUID : Option String
  serverName : Option String
  serverGroupName : Option String
deriving DecidableEq, Repr

/-- The mutable state Check touches: the identity caches
(AgentSecretToUserId, UserInfoMap, ServerShared UUID-to-ID), the database
tables it reads and writes (server groups, servers, memberships), and the
WAF block list. -/
structure CheckState where
  agentSecretToUserId : List (String × Nat)
  userInfoMap : List (Nat × Role)
  uuidToID : List (String × Nat)
  groups : List SGroup
  servers : List SRecord
  memberships : List GMembership
  blocked : List String
deriving DecidableEq, Repr

/-- The error exits of Check. Every one of them is returned with gRPC code
codes.Unauthenticated in the source (auth.go lines 26, 35, 45, 58, 92, 94,
97, 100, 142). -/
inductive AuthError where
  | metadataFail
  | authFail
  | invalidUUID
  | groupNotFound
  | groupQueryFail
  | groupNoPermission
  | txFail
deriving DecidableEq, Repr

/-- Observable side effects of a Check call, in order of occurrence. -/
inductive Effect where
  | blockIP (ip : String)
  | unblockIP (ip : String)
  | nameSynthesis
  | groupLookupScoped (name : String) (uid : Nat)
  | groupLookupUnscoped (name : String)
  | txCreate
  | cacheRegister (uuid : String) (id : Nat)
deriving DecidableEq, Repr

/-- Environment facts outside the embedded state that a single Check call
observes: whether the provisioning transaction commits, whether either
group query fails with a database error other than record-not-found, the
petname.Generate output, and the id the database assigns on Create. -/
structure Oracle where
  txSucceeds : Bool
  scopedDbError : Bool
  unscopedDbError : Bool
  petname : String
  nextServerId : Nat
deriving DecidableEq, Repr

/-- model.BlockIP: put the address on the block list (idempotent). -/
def blockIPList (l : List String) (ip : String) : List String :=
  if ip ∈ l then l else ip :: l

/-- model.UnblockIP: remove the address from the block list. -/
def unblockIPList (l : List String) (ip : String) : List String :=
  l.filter (fun x => x != ip)

/-- Association-list lookup standing for a Go map read. -/
def lookupA (l : List (String × Nat)) (k : String) : Option Nat :=
  (l.find? (fun p => p.1 == k)).map (fun p => p.2)

/-- UserInfoMap read (auth.go line 85). -/
def lookupRole (l : List (Nat × Role)) (k : Nat) : Option Role :=
  (l.find? (fun p => p.1 == k)).map (fun p => p.2)

/-- Outcome of a gorm First query: a row, gorm.ErrRecordNotFound, or any
other database error. -/
inductive DBFind where
  | found (g : SGroup)
  | notFound
  | dbError
deriving DecidableEq, Repr

/-- DB.Where("name = ? AND user_id = ?", groupName, userId).First
(auth.go line 81): the first group matching both name and owner. -/
def scopedFirst (groups : List SGroup) (name : String) (uid : Nat)
    (dbErr : Bool) : DBFind :=
  if dbErr then .dbError
  else
    match groups.find? (fun g => g.name == name && g.userId == uid) with
    | some g => .found g
    | none => .notFound

/-- DB.Where("name = ?", groupName).First (auth.go line 90): the first
group matching the name in any account. -/
def unscopedFirst (groups : List SGroup) (name : String)
    (dbErr : Bool) : DBFind :=
  if dbErr then .dbError
  else
    match groups.find? (fun g => g.name == name) with
    | some g => .found g
    | none => .notFound

/-- Group-name resolution, auth.go lines 74-106: scoped query first; on
record-not-found an administrator retries unscoped, an ordinary account
fails with no-permission; any other database error fails the call.
Returns the resolved serverGroupID (0 when no group was requested). -/
def resolveGroup (groups : List SGroup) (uim : List (Nat × Role))
    (userId : Nat) (v : Option String) (o : Oracle) :
    Except AuthError Nat × List Effect :=
  match v with
  | none => (.ok 0, [])
  | some raw =>
    let groupName := trimSpace raw
    if groupName = "" then (.ok 0, [])
    else
      match scopedFirst groups groupName userId o.scopedDbError with
      | .found g => (.ok g.id, [.groupLookupScoped groupName userId])
      | .dbError => (.error .groupQueryFail, [.groupLookupScoped groupName userId])
      | .notFound =>
        match lookupRole uim userId with
        | some .admin =>
          match unscopedFirst groups groupName o.unscopedDbError with
          | .found g =>
            (.ok g.id, [.groupLookupScoped groupName userId, .groupLookupUnscoped groupName])
          | .notFound =>
            (.error .groupNotFound, [.groupLookupScoped groupName userId, .groupLookupUnscoped groupName])
          | .dbError =>
            (.error .groupQueryFail, [.groupLookupScoped groupName userId, .groupLookupUnscoped groupName])
        | _ => (.error .groupNoPermission, [.groupLookupScoped groupName userId])

deriving instance DecidableEq for Except

/-- Result of one Check call: the returned identity or error, the state
after the call, and the side effects in order. -/
structure CheckOutcome where
  res : Except AuthError Nat
  st : CheckState
  effects : List Effect
deriving DecidableEq, Repr

/-- authHandler.Check, service/rpc/auth.go lines 23-166. The metadata is
None when metadata.FromIncomingContext fails. Every branch mirrors the
source: secret extraction and trim (30-36), block on unknown secret and
unblock on known secret (40-49), UUID trim and length check against the
Go byte length (51-59), the ServerShared.UUIDToID fast path (61-62),
name defaulting to petname.Generate (64-72), group resolution (74-106),
the provisioning transaction (117-143), and registration of the new
record in memory (159-162). -/
def Check (st : CheckState) (md : Option Metadata) (ip : String)
    (o : Oracle) : CheckOutcome :=
  match md with
  | none => ⟨.error .metadataFail, st, []⟩
  | some m =>
    let clientSecret := trimSpace (m.clientSecret.getD "")
    if clientSecret = "" then ⟨.error .authFail, st, []⟩
    else
      match lookupA st.agentSecretToUserId clientSecret with
      | none =>
        ⟨.error .authFail, { st with blocked := blockIPList st.blocked ip }, [.blockIP ip]⟩
      | some userId =>
        let st1 : CheckState := { st with blocked := unblockIPList st.blocked ip }
        let clientUUID := trimSpace (m.clientUUID.getD "")
        if clientUUID = "" ∨ 64 < clientUUID.utf8ByteSize then
          ⟨.error .invalidUUID, st1, [.unblockIP ip]⟩
        else
          match lookupA st1.uuidToID clientUUID with
          | some clientID => ⟨.ok clientID, st1, [.unblockIP ip]⟩
          | none =>
            let rawName := trimSpace (m.serverName.getD "")
            let serverName := if rawName = "" then o.petname else rawName
            let nameEffs : List Effect := if rawName = "" then [.nameSynthesis] else []
            let gr := resolveGroup st1.groups st1.userInfoMap userId m.serverGroupName o
            match gr.1 with
            | .error e => ⟨.error e, st1, .unblockIP ip :: nameEffs ++ gr.2⟩
            | .ok serverGroupID =>
              if o.txSucceeds then
                let sid := o.nextServerId
                let st2 : CheckState := { st1 with
                  servers := ⟨sid, clientUUID, serverName, userId⟩ :: st1.servers,
                  memberships :=
                    if 0 < serverGroupID then
                      ⟨userId, serverGroupID, sid⟩ :: st1.memberships
                    else st1.memberships,
                  uuidToID := (clientUUID, sid) :: st1.uuidToID }
                ⟨.ok sid, st2,
                  .unblockIP ip :: nameEffs ++ gr.2 ++ [.txCreate, .cacheRegister clientUUID sid]⟩
              else
                ⟨.error .txFail, st1, .unblockIP ip :: nameEffs ++ gr.2⟩

/- ===== Geo/ASN fallback cache (package geoip, ip-api path) =====
   Time is modelled in whole seconds as integers. -/

/-- cacheExpiry = 24 * time.Hour, in seconds. -/
def cacheExpiry : Int := 86400

/-- minRequestInterval = 2 * time.Second, in seconds. -/
def minRequestInterval : Int := 2

/-- A cacheEntry of the ipCache map: country code, ASN organization, and
the time the entry was stored. -/
structure CacheEntry where
  countryCode : String
  asn : String
  timestamp : Int
deriving DecidableEq, Repr

/-- The package-level mutable state: the ipCache map and the rate-limit
lastRequestTime. -/
structure GeoState where
  ipCache : List (String × CacheEntry)
  lastRequestTime : Int
deriving DecidableEq, Repr

/-- ipCache map read. -/
def cacheLookup (c : List (String × CacheEntry)) (ip : String) : Option CacheEntry :=
  (c.find? (fun p => p.1 == ip)).map (fun p => p.2)

/-- getCachedResult: return the cached pair unless the entry is missing or
time.Since(entry.timestamp) > cacheExpiry (lazy expiry on read). -/
def getCachedResult (c : List (String × CacheEntry)) (now : Int)
    (ip : String) : Option (String × String) :=
  match cacheLookup c ip with
  | none => none
  | some e => if cacheExpiry < now - e.timestamp then none else some (e.countryCode, e.asn)

/-- setCachedResult: store the pair keyed by address with the current time. -/
def setCachedResult (c : List (String × CacheEntry)) (ip : String)
    (countryCode asn : String) (now : Int) : List (String × CacheEntry) :=
  (ip, ⟨countryCode, asn, now⟩) :: c

/-- checkRateLimit: under the request mutex, if less than
minRequestInterval has elapsed since lastRequestTime, sleep exactly the
remainder; then set lastRequestTime to the current time (which, after the
sleep, is the entry time plus the sleep). Returns (sleep duration, new
lastRequestTime). -/
def checkRateLimit (last now : Int) : Int × Int :=
  let elapsed := now - last
  if elapsed < minRequestInterval then
    let sleepTime := minRequestInterval - elapsed
    (sleepTime, now + sleepTime)
  else
    (0, now)

/-- The fields of the ip-api JSON response that queryIPAPI reads. -/
structure APIResponse where
  status : String
  countryCode : String
  org : String
  asStr : String
  query : String
deriving DecidableEq, Repr

/-- Outcome of the one outbound HTTP call a cache miss performs:
transport failure, HTTP status, JSON decode failure, decoded body. -/
structure NetOutcome where
  transportErr : Bool
  statusCode : Nat
  decodeErr : Bool
  body : APIResponse
deriving DecidableEq, Repr

/-- The failure exits of queryIPAPI. -/
inductive GeoError where
  | invalidIP
  | requestFailed
  | badStatusCode
  | decodeFailed
  | apiErrorStatus
deriving DecidableEq, Repr

/-- Observable actions of a queryIPAPI call. -/
inductive GeoEffect where
  | rateLimitCheck
  | httpGet (ip : String)
deriving DecidableEq, Repr

/-- Everything after the first space of a character list, when the list
contains a space. -/
def afterFirstSpace : List Char → Option (List Char)
  | [] => none
  | c :: t => if c = ' ' then some t else afterFirstSpace t

/-- strings.SplitN(s, " ", 2)[1] when a space exists, else s: the
organization part of an AS field of the form "AS15169 Google LLC". -/
def asnOrg (s : String) : String :=
  match afterFirstSpace s.data with
  | none => s
  | some rest => ⟨rest⟩

/-- The ASN string stored in the cache (queryIPAPI lines 314-325): the
organization part of the AS field, else the Org field, else empty. -/
def extractASN (r : APIResponse) : String :=
  if r.asStr ≠ "" then asnOrg r.asStr
  else if r.org ≠ "" then r.org
  else ""

/-- Result of one queryIPAPI call: the response or error, the state after
the call, and the actions performed. -/
structure GeoOutcome where
  res : Except GeoError APIResponse
  st : GeoState
  effects : List GeoEffect
deriving DecidableEq, Repr

/-- queryIPAPI: nil check, cache check (a hit returns a synthesized
success response without touching the rate limiter or the network), then
checkRateLimit, then the outbound call; a transport error, a non-200
status, a decode failure or a non-success body status is a failure and is
not cached; on success the extracted pair is stored keyed by the address.
The ip argument is None for a nil net.IP. The store time is the
post-sleep clock value. -/
def queryIPAPI (st : GeoState) (ip : Option String) (now : Int)
    (net : NetOutcome) : GeoOutcome :=
  match ip with
  | none => ⟨.error .invalidIP, st, []⟩
  | some ipStr =>
    match getCachedResult st.ipCache now ipStr with
    | some (cc, asn) => ⟨.ok ⟨"success", cc, "", asn, ipStr⟩, st, []⟩
    | none =>
      let rl := checkRateLimit st.lastRequestTime now
      let st1 : GeoState := { st with lastRequestTime := rl.2 }
      let effs : List GeoEffect := [.rateLimitCheck, .httpGet ipStr]
      if net.transportErr then ⟨.error .requestFailed, st1, effs⟩
      else if net.statusCode ≠ 200 then ⟨.error .badStatusCode, st1, effs⟩
      else if net.decodeErr then ⟨.error .decodeFailed, st1, effs⟩
      else if net.body.status ≠ "success" then ⟨.error .apiErrorStatus, st1, effs⟩
      else
        let asn := extractASN net.body
        let st2 : GeoState :=
          { st1 with ipCache := setCachedResult st1.ipCache ipStr net.body.countryCode asn rl.2 }
        ⟨.ok net.body, st2, effs⟩

/- ===== Live-view broadcaster (cmd/dashboard/controller/ws.go) ===== -/

/-- The GeoIP data attached to a server, as read by getServerStat
(ws.go lines 175-179): CountryCode, the joined IP string, ASN. -/
structure GeoIPInfo where
  countryCode : String
  ipJoined : String
  asn : String
deriving DecidableEq, Repr

/-- The fields of model.Server that getServerStat reads. Host redaction
is kept abstract: host is the full value, hostFiltered the value of
Host.Filter() (redacted for guests). -/
structure Server where
  id : Nat
  name : String
  publicNote : String
  displayIndex : Int
  host : String
  hostFiltered : String
  state : String
  geoIP : Option GeoIPInfo
  lastActive : Int
deriving DecidableEq, Repr

/-- model.StreamServer, the per-host entry of a snapshot. -/
structure StreamServer where
  id : Nat
  name : String
  publicNote : String
  displayIndex : Int
  host : String
  state : String
  countryCode : String
  ipAddress : String
  asn : String
  lastActive : Int
deriving DecidableEq, Repr

/-- utils.IfOr(b, x, y): x when b, else y. -/
def IfOr {α : Type} (b : Bool) (x y : α) : α :=
  if b then x else y

/-- The loop body of getServerStat (ws.go lines 170-193): one
StreamServer built from one Server under the two flags. PublicNote is
included only when withPublicNote holds; Host is redacted unless
authorized. -/
def mkStreamServer (withPublicNote authorized : Bool) (s : Server) : StreamServer :=
  let cc := match s.geoIP with | some g => g.countryCode | none => ""
  let ipa := match s.geoIP with | some g => g.ipJoined | none => ""
  let asn := match s.geoIP with | some g => g.asn | none => ""
  { id := s.id
    name := s.name
    publicNote := IfOr withPublicNote s.publicNote ""
    displayIndex := s.displayIndex
    host := IfOr authorized s.host s.hostFiltered
    state := s.state
    countryCode := cc
    ipAddress := ipa
    asn := asn
    lastActive := s.lastActive }

/-- The server lists and viewer count getServerStat reads from
singleton.ServerShared and the online-user registry. -/
structure DashState where
  sortedList : List Server
  sortedListForGuest : List Server
  onlineCount : Nat
deriving DecidableEq, Repr

/-- model.StreamServerData before JSON marshalling. -/
structure StreamServerData where
  now : Int
  online : Nat
  servers : List StreamServer
deriving DecidableEq, Repr

/-- The snapshot computation of getServerStat (ws.go lines 160-200): the
closure run under the singleflight key for the authorized flag. The
server list is the full sorted list for authorized viewers and the guest
list otherwise; each entry goes through mkStreamServer with the two
flags of the request whose closure executes. -/
def getServerStatData (withPublicNote authorized : Bool) (st : DashState)
    (now : Int) : StreamServerData :=
  let serverList := if authorized then st.sortedList else st.sortedListForGuest
  { now := now
    online := st.onlineCount
    servers := serverList.map (mkStreamServer withPublicNote authorized) }

/-- The call serverStream makes on its iteration number count
(ws.go line 139): getServerStat(count == 0, isMember). The first
argument — whether note text is included — is the first-iteration flag,
not the privilege flag. -/
def serverStreamFrame (count : Nat) (isMember : Bool) (st : DashState)
    (now : Int) : StreamServerData :=
  getServerStatData (count == 0) isMember st now

/-- The singleflight key used by getServerStat (ws.go line 161):
fmt.Sprintf with the authorized flag only. -/
def coalesceKey (authorized : Bool) : String :=
  "serverStats::" ++ (if authorized then "true" else "false")

/- ===== Request coalescing (singleflight) =====
   Modelled from the spec: golang.org/x/sync/singleflight is an external
   dependency whose source is not under src/. Its Do semantics per key,
   as the spec describes them: the first request for a key with no
   in-flight computation starts one; requests arriving while one is in
   flight join it as waiters; when the computation completes, every
   waiter receives that one computation result. Request arrivals are
   serialized by the group mutex, so they are modelled as a sequence of
   atomic transitions on the per-key state. -/

/-- Per-key singleflight state: the in-flight computation (its index and
the requesters waiting on it), the number of computations started so
far, and which computation result each requester received. -/
structure SFState where
  inflight : Option (Nat × List Nat)
  compCount : Nat
  delivered : List (Nat × Nat)
deriving DecidableEq, Repr

/-- A requester arrives: start a computation if none is in flight, else
join the in-flight one. -/
def sfRequest (st : SFState) (rid : Nat) : SFState :=
  match st.inflight with
  | none => { st with inflight := some (st.compCount, [rid]), compCount := st.compCount + 1 }
  | some (c, ws) => { st with inflight := some (c, rid :: ws) }

/-- The in-flight computation completes: every waiter receives its
result, and the key has no in-flight computation again. -/
def sfComplete (st : SFState) : SFState :=
  match st.inflight with
  | none => st
  | some (c, ws) => { st with inflight := none, delivered := ws.map (fun r => (r, c)) ++ st.delivered }

/- ===== Concrete states used by counterexamples and witnesses ===== -/

/-- Effects that touch the block list. -/
def Effect.isBlockOp : Effect → Bool
  | .blockIP _ => true
  | .unblockIP _ => true
  | _ => false

/-- Effects emitted by group resolution. -/
def Effect.isGroupLookup : Effect → Bool
  | .groupLookupScoped _ _ => true
  | .groupLookupUnscoped _ => true
  | _ => false

/-- A state knowing one agent secret "sek" for user 7, with empty caches
and tables. -/
def exState : CheckState := ⟨[("sek", 7)], [], [], [], [], [], []⟩

/-- A benign environment: the transaction commits, no database errors,
petname.Generate yields "brave-otter", the database assigns id 11. -/
def exOracle : Oracle := ⟨true, false, false, "brave-otter", 11⟩

/-- The same environment but with a failing provisioning transaction. -/
def exOracleFail : Oracle := ⟨false, false, false, "brave-otter", 11⟩

/-- Two groups named "prod", owned by users 7 and 8. -/
def exWitGroups : List SGroup := [⟨1, "prod", 7⟩, ⟨2, "prod", 8⟩]

/-- Role map: user 7 ordinary, user 5 administrator. -/
def exWitRoles : List (Nat × Role) := [(7, .ordinary), (5, .admin)]

/-- Environment with no database errors. -/
def exWitOracle : Oracle := ⟨true, false, false, "brave-otter", 11⟩

/-- A UUID of 33 CJK characters: character length 33, UTF-8 byte length 99. -/
def exWideUUID : String := "一一一一一一一一一一一一一一一一一一一一一一一一一一一一一一一一一"

/-- One host whose stored public note is nonempty. -/
def exServer : Server :=
  ⟨1, "s1", "secret-note", 0, "host-full", "host-redacted", "up", none, 0⟩

/-- A dashboard state with that one host visible to both privilege
classes and one online viewer. -/
def exDash : DashState := ⟨[exServer], [exServer], 1⟩

/-- A state where UUID "uu" is already mapped to identity 3 in the
ServerShared cache. -/
def exFastState : CheckState := ⟨[("sek", 7)], [], [("uu", 3)], [], [], [], []⟩

/-- An ASCII UUID of exactly 64 characters (64 UTF-8 bytes). -/
def ascii64 : String :=
  "aaaaaaaaaaaaaaaaaaaaaaaaaaaaaaaaaaaaaaaaaaaaaaaaaaaaaaaaaaaaaaaa"

/-- An ASCII UUID of exactly 65 characters (65 UTF-8 bytes). -/
def ascii65 : String :=
  "aaaaaaaaaaaaaaaaaaaaaaaaaaaaaaaaaaaaaaaaaaaaaaaaaaaaaaaaaaaaaaaaa"

/- ===== Helper lemmas ===== -/

theorem checkRateLimit_sep (last now : Int) :
    minRequestInterval ≤ (checkRateLimit last now).2 - last := by
  simp only [checkRateLimit, minRequestInterval]
  split <;> dsimp only <;> omega

/- ===== C7: Geo/ASN TTL cache ===== -/

/-- C7: a fallback-cache lookup whose stored entry is less than 24 hours
old returns the cached country code and organization with no outbound
call and no rate-limiter interaction (no effects, state unchanged); an
entry older than 24 hours is treated as absent, the lookup proceeds
through the rate limiter and the outbound call, and on a successful
response the entry is refreshed. -/
theorem C7_geo_cache (c : List (String × CacheEntry)) (lastReq now : Int)
    (ip : String) (e : CacheEntry) (net : NetOutcome)
    (hfind : cacheLookup c ip = some e) :
    (now - e.timestamp < cacheExpiry →
      getCachedResult c now ip = some (e.countryCode, e.asn) ∧
      queryIPAPI ⟨c, lastReq⟩ (some ip) now net =
        ⟨.ok ⟨"success", e.countryCode, "", e.asn, ip⟩, ⟨c, lastReq⟩, []⟩) ∧
    (cacheExpiry < now - e.timestamp →
      getCachedResult c now ip = none ∧
      (queryIPAPI ⟨c, lastReq⟩ (some ip) now net).effects =
        [.rateLimitCheck, .httpGet ip] ∧
      (net.transportErr = false → net.statusCode = 200 → net.decodeErr = false →
        net.body.status = "success" →
        cacheLookup (queryIPAPI ⟨c, lastReq⟩ (some ip) now net).st.ipCache ip =
          some ⟨net.body.countryCode, extractASN net.body,
                (checkRateLimit lastReq now).2⟩)) := by
  constructor
  · intro hfresh
    have hnotlt : ¬ cacheExpiry < now - e.timestamp := by
      simp only [cacheExpiry] at hfresh ⊢
      omega
    have hget : getCachedResult c now ip = some (e.countryCode, e.asn) := by
      simp [getCachedResult, hfind, hnotlt]
    exact ⟨hget, by simp [queryIPAPI, hget]⟩
  · intro hstale
    have hget : getCachedResult c now ip = none := by
      simp [getCachedResult, hfind, hstale]
    refine ⟨hget, ?_, ?_⟩
    · simp only [queryIPAPI, hget]
      split
      · rfl
      · split
        · rfl
        · split
          · rfl
          · split <;> rfl
    · intro h1 h2 h3 h4
      simp [queryIPAPI, hget, h1, h2, h3, h4, setCachedResult, cacheLookup]

/-- C7 witness: a concrete entry aged 1000 seconds is served from the
cache; the same entry aged 86401 seconds (24 hours and 1 second) is a
miss and triggers the rate-limited outbound path. -/
theorem C7_geo_cache_witness :
    (getCachedResult [("1.1.1.1", ⟨"us", "ExampleNet", 0⟩)] 1000 "1.1.1.1"
        = some ("us", "ExampleNet") ∧
      queryIPAPI ⟨[("1.1.1.1", ⟨"us", "ExampleNet", 0⟩)], 0⟩ (some "1.1.1.1") 1000
          ⟨false, 200, false, ⟨"success", "de", "", "AS1 Net", "1.1.1.1"⟩⟩ =
        ⟨.ok ⟨"success", "us", "", "ExampleNet", "1.1.1.1"⟩,
          ⟨[("1.1.1.1", ⟨"us", "ExampleNet", 0⟩)], 0⟩, []⟩) ∧
    (getCachedResult [("1.1.1.1", ⟨"us", "ExampleNet", 0⟩)] 86401 "1.1.1.1" = none ∧
      (queryIPAPI ⟨[("1.1.1.1", ⟨"us", "ExampleNet", 0⟩)], 0⟩ (some "1.1.1.1") 86401
          ⟨false, 200, false, ⟨"success", "de", "", "AS1 Net", "1.1.1.1"⟩⟩).effects =
        [.rateLimitCheck, .httpGet "1.1.1.1"] ∧
      cacheLookup (queryIPAPI ⟨[("1.1.1.1", ⟨"us", "ExampleNet", 0⟩)], 0⟩
          (some "1.1.1.1") 86401
          ⟨false, 200, false, ⟨"success", "de", "", "AS1 Net", "1.1.1.1"⟩⟩).st.ipCache
          "1.1.1.1" =
        some ⟨"de", "Net", 86401⟩) := by
  have h := C7_geo_cache [("1.1.1.1", ⟨"us", "ExampleNet", 0⟩)] 0 1000 "1.1.1.1"
    ⟨"us", "ExampleNet", 0⟩ ⟨false, 200, false, ⟨"success", "de", "", "AS1 Net", "1.1.1.1"⟩⟩
    (by decide)
  have h2 := C7_geo_cache [("1.1.1.1", ⟨"us", "ExampleNet", 0⟩)] 0 86401 "1.1.1.1"
    ⟨"us", "ExampleNet", 0⟩ ⟨false, 200, false, ⟨"success", "de", "", "AS1 Net", "1.1.1.1"⟩⟩
    (by decide)
  refine ⟨h.1 (by decide), ?_⟩
  have h3 := h2.2 (by decide)
  refine ⟨h3.1, h3.2.1, ?_⟩
  have h4 := h3.2.2 rfl rfl rfl rfl
  have h5 : extractASN ⟨"success", "de", "", "AS1 Net", "1.1.1.1"⟩ = "Net" := by decide
  have h6 : (checkRateLimit 0 86401).2 = 86401 := by decide
  rw [h5, h6] at h4
  exact h4

/- ===== C8: global outbound rate limiter ===== -/

/-- C8: consecutive outbound external lookups are separated by at least
minRequestInterval: the timestamp recorded for each call (the post-sleep
clock) is at least 2 seconds after the previous one, and when less than
2 seconds have elapsed the caller sleeps for exactly the remainder
before the timestamp is updated. -/
theorem C8_rate_limit (last now1 now2 : Int) :
    minRequestInterval ≤ (checkRateLimit last now1).2 - last ∧
    minRequestInterval ≤
      (checkRateLimit (checkRateLimit last now1).2 now2).2 -
        (checkRateLimit last now1).2 ∧
    (now1 - last < minRequestInterval →
      (checkRateLimit last now1).1 = minRequestInterval - (now1 - last) ∧
      (checkRateLimit last now1).2 = now1 + (checkRateLimit last now1).1) ∧
    (minRequestInterval ≤ now1 - last → (checkRateLimit last now1).1 = 0) := by
  refine ⟨checkRateLimit_sep last now1, checkRateLimit_sep _ now2, ?_, ?_⟩
  · intro hlt
    simp only [checkRateLimit, minRequestInterval] at hlt ⊢
    rw [if_pos (by omega)]
    exact ⟨rfl, rfl⟩
  · intro hge
    simp only [checkRateLimit, minRequestInterval] at hge ⊢
    rw [if_neg (by omega)]

/-- C8 witness: last call recorded at 100, next caller arrives at 101
(only 1 second elapsed): it sleeps exactly 1 second and its call goes
out at 102; a third caller arriving at 102 goes out at 104. -/
theorem C8_rate_limit_witness :
    minRequestInterval ≤ (checkRateLimit 100 101).2 - 100 ∧
    minRequestInterval ≤
      (checkRateLimit (checkRateLimit 100 101).2 102).2 - (checkRateLimit 100 101).2 ∧
    ((101 : Int) - 100 < minRequestInterval →
      (checkRateLimit 100 101).1 = minRequestInterval - (101 - 100) ∧
      (checkRateLimit 100 101).2 = 101 + (checkRateLimit 100 101).1) ∧
    (minRequestInterval ≤ (101 : Int) - 100 → (checkRateLimit 100 101).1 = 0) :=
  C8_rate_limit 100 101 102

/- ===== C1: note text in broadcast snapshots ===== -/

/-- C1 counterexample: with a host whose stored public note is
"secret-note", the snapshot computed for a guest viewer on its first
iteration (serverStream calls getServerStat(count == 0, isMember), so
count = 0 and isMember = false) carries the note text, and the snapshot
computed for an authorized viewer on a later iteration does not. The
note flag is the first-iteration flag, not the privilege flag. -/
theorem C1_counterexample :
    ((serverStreamFrame 0 false exDash 0).servers.map StreamServer.publicNote
        = ["secret-note"]) ∧
    ((serverStreamFrame 1 true exDash 0).servers.map StreamServer.publicNote
        = [""]) := by decide

/-- C1 (amended): a host entry of a computed snapshot carries the note
text exactly when the withPublicNote flag of the computation is set, and
serverStream sets that flag to (count == 0) — the requesting
first iteration of the requesting connection — independently of viewer privilege;
privilege only selects the server list and host redaction. -/
theorem C1_note_visibility (cnt : Nat) (isM : Bool) (st : DashState) (now : Int) :
    ((serverStreamFrame cnt isM st now).servers.map StreamServer.publicNote =
      (if isM then st.sortedList else st.sortedListForGuest).map
        (fun s => if cnt = 0 then s.publicNote else "")) ∧
    (∀ wpn auth : Bool, ∀ s : Server,
      (mkStreamServer wpn auth s).publicNote = if wpn then s.publicNote else "") := by
  have hmap : ∀ (l : List Server) (wpn auth : Bool),
      (l.map (mkStreamServer wpn auth)).map StreamServer.publicNote =
        l.map (fun s => if wpn then s.publicNote else "") := by
    intro l wpn auth
    induction l with
    | nil => rfl
    | cons a t ih =>
      cases wpn
      all_goals simp [mkStreamServer, IfOr]
      all_goals simpa using ih
  constructor
  · cases isM <;> cases cnt <;>
      simp [serverStreamFrame, getServerStatData, hmap]
  · intro wpn auth s
    cases wpn <;> simp [mkStreamServer, IfOr]

/- ===== C9: snapshot coalescing per privilege class ===== -/

theorem sf_foldl_joins (l : List Nat) (st : SFState) (c : Nat) (ws : List Nat)
    (h : st.inflight = some (c, ws)) :
    (l.foldl sfRequest st).inflight = some (c, l.reverse ++ ws) ∧
    (l.foldl sfRequest st).compCount = st.compCount ∧
    (l.foldl sfRequest st).delivered = st.delivered := by
  induction l generalizing st ws with
  | nil =>
    simp only [List.foldl_nil, List.reverse_nil, List.nil_append]
    exact ⟨h, trivial, trivial⟩
  | cons r t ih =>
    have hreq : sfRequest st r = { st with inflight := some (c, r :: ws) } := by
      simp [sfRequest, h]
    have hrec := ih (sfRequest st r) (r :: ws) (by rw [hreq])
    simp only [List.foldl_cons]
    refine ⟨?_, ?_, ?_⟩
    · rw [hrec.1]
      simp
    · rw [hrec.2.1, hreq]
    · rw [hrec.2.2, hreq]

/-- C9: with no computation in flight for a key, a burst of requesters
r0 :: rest arriving (serialized by the group mutex) starts exactly one
computation — compCount rises by exactly 1 — and when it completes every
requester in the burst receives the result of that same single
computation (index st0.compCount), so all receive identical output; the
in-flight slot is an Option, so at most one computation per key is ever
in flight, and the two privilege classes use distinct singleflight keys. -/
theorem C9_coalescing (st0 : SFState) (r0 : Nat) (rest : List Nat)
    (h : st0.inflight = none) :
    ((r0 :: rest).foldl sfRequest st0).compCount = st0.compCount + 1 ∧
    (sfComplete ((r0 :: rest).foldl sfRequest st0)).compCount = st0.compCount + 1 ∧
    (sfComplete ((r0 :: rest).foldl sfRequest st0)).inflight = none ∧
    (∀ r, r ∈ r0 :: rest →
      (r, st0.compCount) ∈ (sfComplete ((r0 :: rest).foldl sfRequest st0)).delivered) ∧
    coalesceKey true ≠ coalesceKey false := by
  have hreq : sfRequest st0 r0 =
      { st0 with inflight := some (st0.compCount, [r0]),
                 compCount := st0.compCount + 1 } := by
    simp [sfRequest, h]
  have hf := sf_foldl_joins rest (sfRequest st0 r0) st0.compCount [r0] (by rw [hreq])
  have hcount : (rest.foldl sfRequest (sfRequest st0 r0)).compCount = st0.compCount + 1 := by
    rw [hf.2.1, hreq]
  have hcomp : sfComplete (rest.foldl sfRequest (sfRequest st0 r0)) =
      { rest.foldl sfRequest (sfRequest st0 r0) with
          inflight := none,
          delivered := (rest.reverse ++ [r0]).map (fun r => (r, st0.compCount)) ++
            (rest.foldl sfRequest (sfRequest st0 r0)).delivered } := by
    simp [sfComplete, hf.1]
  simp only [List.foldl_cons]
  refine ⟨hcount, ?_, ?_, ?_, by decide⟩
  · rw [hcomp]
    exact hcount
  · rw [hcomp]
  · intro r hr
    rw [hcomp]
    apply List.mem_append_left
    apply List.mem_map_of_mem
    rcases List.mem_cons.mp hr with h1 | h1
    · subst h1
      exact List.mem_append_right _ (by simp)
    · exact List.mem_append_left _ (List.mem_reverse.mpr h1)

/-- C9 witness: three requesters arrive while nothing is in flight:
one computation starts, and all three receive its result. -/
theorem C9_coalescing_witness :
    (([1, 2, 3] : List Nat).foldl sfRequest ⟨none, 0, []⟩).compCount = 0 + 1 ∧
    (sfComplete (([1, 2, 3] : List Nat).foldl sfRequest ⟨none, 0, []⟩)).compCount = 0 + 1 ∧
    (sfComplete (([1, 2, 3] : List Nat).foldl sfRequest ⟨none, 0, []⟩)).inflight = none ∧
    (∀ r, r ∈ ([1, 2, 3] : List Nat) →
      (r, 0) ∈ (sfComplete (([1, 2, 3] : List Nat).foldl sfRequest ⟨none, 0, []⟩)).delivered) ∧
    coalesceKey true ≠ coalesceKey false :=
  C9_coalescing ⟨none, 0, []⟩ 1 [2, 3] rfl

/- ===== Auth helper lemmas ===== -/

theorem resolveGroup_effects_groupLookup (groups : List SGroup)
    (uim : List (Nat × Role)) (userId : Nat) (v : Option String) (o : Oracle) :
    ((resolveGroup groups uim userId v o).2).all Effect.isGroupLookup = true := by
  rcases v with _ | raw
  · rfl
  · unfold resolveGroup
    dsimp only
    split
    · rfl
    · split
      · rfl
      · rfl
      · split
        · split <;> rfl
        · rfl

theorem resolveGroup_error_mem (groups : List SGroup) (uim : List (Nat × Role))
    (userId : Nat) (v : Option String) (o : Oracle) (e : AuthError)
    (h : (resolveGroup groups uim userId v o).1 = .error e) :
    e = .groupNotFound ∨ e = .groupQueryFail ∨ e = .groupNoPermission := by
  rcases v with _ | raw
  · simp [resolveGroup] at h
  · unfold resolveGroup at h
    dsimp only at h
    split at h
    · simp at h
    · split at h
      · simp at h
      · simp at h
        simp [h]
      · split at h
        · split at h
          · simp at h
          · simp at h
            simp [h]
          · simp at h
            simp [h]
        · simp at h
          simp [h]

theorem resolveGroup_oracle_irrel (groups : List SGroup) (uim : List (Nat × Role))
    (userId : Nat) (v : Option String) (o1 o2 : Oracle)
    (h1 : o1.scopedDbError = o2.scopedDbError)
    (h2 : o1.unscopedDbError = o2.unscopedDbError) :
    resolveGroup groups uim userId v o1 = resolveGroup groups uim userId v o2 := by
  rcases v with _ | raw
  · rfl
  · simp only [resolveGroup, h1, h2]

theorem all_not_blockOp_of_groupLookup (l : List Effect)
    (h : l.all Effect.isGroupLookup = true) :
    l.all (fun x => !x.isBlockOp) = true := by
  rw [List.all_eq_true] at h ⊢
  intro x hx
  have hg := h x hx
  cases x <;> simp_all [Effect.isGroupLookup, Effect.isBlockOp]

theorem check_effects_shape (st : CheckState) (m : Metadata) (ip : String)
    (o : Oracle) (uid : Nat)
    (hsec : trimSpace (m.clientSecret.getD "") ≠ "")
    (hmap : lookupA st.agentSecretToUserId (trimSpace (m.clientSecret.getD "")) = some uid) :
    ∃ tail, (Check st (some m) ip o).effects = .unblockIP ip :: tail ∧
      tail.all (fun x => !x.isBlockOp) = true := by
  unfold Check
  dsimp only
  rw [if_neg hsec, hmap]
  dsimp only
  split
  · exact ⟨[], rfl, rfl⟩
  · split
    · exact ⟨[], rfl, rfl⟩
    · have hgl := all_not_blockOp_of_groupLookup _
        (resolveGroup_effects_groupLookup st.groups st.userInfoMap uid m.serverGroupName o)
      split
      · refine ⟨_, rfl, ?_⟩
        simp only [List.append_eq, List.all_append, Bool.and_eq_true]
        refine ⟨?_, hgl⟩
        split <;> rfl
      · split
        · refine ⟨_, rfl, ?_⟩
          simp only [List.append_eq, List.all_append, Bool.and_eq_true]
          refine ⟨⟨?_, hgl⟩, rfl⟩
          split <;> rfl
        · refine ⟨_, rfl, ?_⟩
          simp only [List.append_eq, List.all_append, Bool.and_eq_true]
          refine ⟨?_, hgl⟩
          split <;> rfl

/- ===== C2: address blocking on authentication failure ===== -/

/-- C2 counterexample: a call whose client_secret metadata key is absent
fails secret validation with an Unauthenticated error, yet the calling
address is NOT placed on the block list — no block effect is emitted and
the block list is unchanged — contradicting the claim that every
secret-validation failure blocks the address. -/
theorem C2_counterexample :
    (Check exState (some ⟨none, some "uu", none, none⟩) "9.9.9.9" exOracle).res
      = .error .authFail ∧
    Effect.blockIP "9.9.9.9" ∉
      (Check exState (some ⟨none, some "uu", none, none⟩) "9.9.9.9" exOracle).effects ∧
    (Check exState (some ⟨none, some "uu", none, none⟩) "9.9.9.9" exOracle).st.blocked
      = [] := by decide

/-- C2 (amended): the calling address is placed on the block list exactly
when a non-empty (after trimming) secret resolves to no known Account —
an absent or whitespace-only secret fails with the same Unauthenticated
error but without blocking; whenever the secret resolves, the address is
removed from the block list; no later failure (UUID, group, transaction)
ever emits a block. -/
theorem C2_block_semantics (st : CheckState) (m : Metadata) (ip : String) (o : Oracle) :
    (Effect.blockIP ip ∈ (Check st (some m) ip o).effects ↔
      trimSpace (m.clientSecret.getD "") ≠ "" ∧
        lookupA st.agentSecretToUserId (trimSpace (m.clientSecret.getD "")) = none) ∧
    (Effect.unblockIP ip ∈ (Check st (some m) ip o).effects ↔
      trimSpace (m.clientSecret.getD "") ≠ "" ∧
        (lookupA st.agentSecretToUserId (trimSpace (m.clientSecret.getD ""))).isSome = true) ∧
    (trimSpace (m.clientSecret.getD "") = "" →
      Check st (some m) ip o = ⟨.error .authFail, st, []⟩) ∧
    (trimSpace (m.clientSecret.getD "") ≠ "" →
      ∀ uid, lookupA st.agentSecretToUserId (trimSpace (m.clientSecret.getD "")) = some uid →
      (Check st (some m) ip o).st.blocked = unblockIPList st.blocked ip) ∧
    (trimSpace (m.clientSecret.getD "") ≠ "" →
      lookupA st.agentSecretToUserId (trimSpace (m.clientSecret.getD "")) = none →
      Check st (some m) ip o =
        ⟨.error .authFail, { st with blocked := blockIPList st.blocked ip }, [.blockIP ip]⟩) ∧
    (Check st none ip o = ⟨.error .metadataFail, st, []⟩) := by
  have hnone : Check st none ip o = ⟨.error .metadataFail, st, []⟩ := rfl
  by_cases hsec : trimSpace (m.clientSecret.getD "") = ""
  · have hout : Check st (some m) ip o = ⟨.error .authFail, st, []⟩ := by
      unfold Check
      dsimp only
      rw [if_pos hsec]
    refine ⟨?_, ?_, fun _ => hout, fun hne => absurd hsec hne,
      fun hne => absurd hsec hne, hnone⟩
    · rw [hout]
      simp [hsec]
    · rw [hout]
      simp [hsec]
  · rcases hmap : lookupA st.agentSecretToUserId (trimSpace (m.clientSecret.getD "")) with _ | uid
    · have hout : Check st (some m) ip o =
          ⟨.error .authFail, { st with blocked := blockIPList st.blocked ip }, [.blockIP ip]⟩ := by
        unfold Check
        dsimp only
        rw [if_neg hsec, hmap]
      refine ⟨?_, ?_, fun h => absurd h hsec, ?_, fun _ _ => hout, hnone⟩
      · rw [hout]
        simp [hsec, hmap]
      · rw [hout]
        simp [hmap]
      · intro hne uid2 hmap2
        exact Option.noConfusion hmap2
    · obtain ⟨tail, htail, hall⟩ := check_effects_shape st m ip o uid hsec hmap
      have hnotin : Effect.blockIP ip ∉ tail := by
        intro hx
        have hcontra := (List.all_eq_true.mp hall) _ hx
        simp [Effect.isBlockOp] at hcontra
      have hblocked : (Check st (some m) ip o).st.blocked = unblockIPList st.blocked ip := by
        unfold Check
        dsimp only
        rw [if_neg hsec, hmap]
        dsimp only
        split
        · rfl
        · split
          · rfl
          · split
            · rfl
            · split <;> rfl
      refine ⟨?_, ?_, fun h => absurd h hsec, fun _ _ _ => hblocked, ?_, hnone⟩
      · constructor
        · intro hin
          rw [htail] at hin
          rcases List.mem_cons.mp hin with h1 | h1
          · exact absurd h1 (by simp)
          · exact absurd h1 hnotin
        · rintro ⟨h1, h2⟩
          exact Option.noConfusion h2
      · constructor
        · intro _
          exact ⟨hsec, rfl⟩
        · intro _
          rw [htail]
          exact List.mem_cons_self _ _
      · intro h1 h2
        exact Option.noConfusion h2

/-- C2 witness: a present but unknown secret ("bad") blocks the address;
a known secret unblocks it. -/
theorem C2_block_semantics_witness :
    (Effect.blockIP "9.9.9.9" ∈
        (Check exState (some ⟨some "bad", some "uu", none, none⟩) "9.9.9.9" exOracle).effects ↔
      trimSpace ((some "bad" : Option String).getD "") ≠ "" ∧
        lookupA exState.agentSecretToUserId
          (trimSpace ((some "bad" : Option String).getD "")) = none) ∧
    (Effect.unblockIP "9.9.9.9" ∈
        (Check exState (some ⟨some "bad", some "uu", none, none⟩) "9.9.9.9" exOracle).effects ↔
      trimSpace ((some "bad" : Option String).getD "") ≠ "" ∧
        (lookupA exState.agentSecretToUserId
          (trimSpace ((some "bad" : Option String).getD ""))).isSome = true) ∧
    (trimSpace ((some "bad" : Option String).getD "") = "" →
      Check exState (some ⟨some "bad", some "uu", none, none⟩) "9.9.9.9" exOracle =
        ⟨.error .authFail, exState, []⟩) ∧
    (trimSpace ((some "bad" : Option String).getD "") ≠ "" →
      ∀ uid, lookupA exState.agentSecretToUserId
        (trimSpace ((some "bad" : Option String).getD "")) = some uid →
      (Check exState (some ⟨some "bad", some "uu", none, none⟩) "9.9.9.9" exOracle).st.blocked =
        unblockIPList exState.blocked "9.9.9.9") ∧
    (trimSpace ((some "bad" : Option String).getD "") ≠ "" →
      lookupA exState.agentSecretToUserId
          (trimSpace ((some "bad" : Option String).getD "")) = none →
      Check exState (some ⟨some "bad", some "uu", none, none⟩) "9.9.9.9" exOracle =
        ⟨.error .authFail,
          { exState with blocked := blockIPList exState.blocked "9.9.9.9" }, [.blockIP "9.9.9.9"]⟩) ∧
    (Check exState none "9.9.9.9" exOracle = ⟨.error .metadataFail, exState, []⟩) :=
  C2_block_semantics exState ⟨some "bad", some "uu", none, none⟩ "9.9.9.9" exOracle

/- ===== C4: identity-cache fast path ===== -/

/-- C4: when the trimmed UUID is already mapped in the ServerShared
cache, Check returns the previously assigned identity and the whole
outcome is exactly the unblock that precedes the cache lookup: no server
row is created, no membership row, no group lookup, no name synthesis,
no cache registration, and no state change beyond the block list. -/
theorem C4_fast_path (st : CheckState) (m : Metadata) (ip : String) (o : Oracle)
    (uid cid : Nat)
    (hsec : trimSpace (m.clientSecret.getD "") ≠ "")
    (hmap : lookupA st.agentSecretToUserId (trimSpace (m.clientSecret.getD "")) = some uid)
    (huuid : ¬(trimSpace (m.clientUUID.getD "") = "" ∨
        64 < (trimSpace (m.clientUUID.getD "")).utf8ByteSize))
    (hhit : lookupA st.uuidToID (trimSpace (m.clientUUID.getD "")) = some cid) :
    Check st (some m) ip o =
      ⟨.ok cid, { st with blocked := unblockIPList st.blocked ip }, [.unblockIP ip]⟩ := by
  unfold Check
  dsimp only
  rw [if_neg hsec, hmap]
  dsimp only
  rw [if_neg huuid, hhit]

/-- C4 witness: UUID "uu" is mapped to 3; the call returns 3 and performs
only the unblock. -/
theorem C4_fast_path_witness :
    Check exFastState (some ⟨some "sek", some "uu", none, none⟩) "9.9.9.9" exOracle =
      ⟨.ok 3, { exFastState with blocked := unblockIPList exFastState.blocked "9.9.9.9" },
        [.unblockIP "9.9.9.9"]⟩ :=
  C4_fast_path exFastState ⟨some "sek", some "uu", none, none⟩ "9.9.9.9" exOracle 7 3
    (by decide) (by decide) (by decide) (by decide)

/- ===== C3: atomic provisioning transaction ===== -/

/-- C3: on first contact (UUID unmapped), provisioning runs one
transaction: when it commits, the server row and — exactly when a group
was resolved (gid > 0) — the membership row are both persisted and the
UUID is registered in the cache; when it fails, the call returns an
Unauthenticated-class error (txFail), neither row is persisted, the
UUID-to-identity mapping is not registered, and a retried call with a
committing transaction re-enters provisioning and succeeds. -/
theorem C3_provisioning_tx (st : CheckState) (m : Metadata) (ip : String)
    (o : Oracle) (uid gid : Nat)
    (hsec : trimSpace (m.clientSecret.getD "") ≠ "")
    (hmap : lookupA st.agentSecretToUserId (trimSpace (m.clientSecret.getD "")) = some uid)
    (huuid : ¬(trimSpace (m.clientUUID.getD "") = "" ∨
        64 < (trimSpace (m.clientUUID.getD "")).utf8ByteSize))
    (hmiss : lookupA st.uuidToID (trimSpace (m.clientUUID.getD "")) = none)
    (hgrp : (resolveGroup st.groups st.userInfoMap uid m.serverGroupName o).1 = .ok gid) :
    (o.txSucceeds = true →
      (Check st (some m) ip o).res = .ok o.nextServerId ∧
      (Check st (some m) ip o).st.servers =
        ⟨o.nextServerId, trimSpace (m.clientUUID.getD ""),
          (if trimSpace (m.serverName.getD "") = "" then o.petname
            else trimSpace (m.serverName.getD "")), uid⟩ :: st.servers ∧
      (0 < gid → (Check st (some m) ip o).st.memberships =
        ⟨uid, gid, o.nextServerId⟩ :: st.memberships) ∧
      (gid = 0 → (Check st (some m) ip o).st.memberships = st.memberships) ∧
      (Check st (some m) ip o).st.uuidToID =
        (trimSpace (m.clientUUID.getD ""), o.nextServerId) :: st.uuidToID) ∧
    (o.txSucceeds = false →
      (Check st (some m) ip o).res = .error .txFail ∧
      (Check st (some m) ip o).st.servers = st.servers ∧
      (Check st (some m) ip o).st.memberships = st.memberships ∧
      (Check st (some m) ip o).st.uuidToID = st.uuidToID ∧
      (Check (Check st (some m) ip o).st (some m) ip
          { o with txSucceeds := true }).res = .ok o.nextServerId) := by
  unfold Check
  dsimp only
  rw [if_neg hsec, hmap]
  dsimp only
  rw [if_neg huuid, hmiss]
  dsimp only
  rw [hgrp]
  dsimp only
  cases htx : o.txSucceeds with
  | true =>
    rw [if_pos rfl]
    refine ⟨fun _ => ⟨rfl, rfl, ?_, ?_, rfl⟩, fun hfalse => Bool.noConfusion hfalse⟩
    · intro hgid
      dsimp only
      rw [if_pos hgid]
    · intro hgid
      dsimp only
      rw [if_neg (by omega)]
  | false =>
    rw [if_neg Bool.false_ne_true]
    refine ⟨fun htrue => Bool.noConfusion htrue, fun _ => ⟨rfl, rfl, rfl, rfl, ?_⟩⟩
    show (Check { st with blocked := unblockIPList st.blocked ip } (some m) ip
      { o with txSucceeds := true }).res = .ok o.nextServerId
    unfold Check
    dsimp only
    rw [if_neg hsec, hmap]
    dsimp only
    rw [if_neg huuid, hmiss]
    dsimp only
    have hgrp2 : (resolveGroup st.groups st.userInfoMap uid m.serverGroupName
        { o with txSucceeds := true }).1 = .ok gid := by
      rw [resolveGroup_oracle_irrel st.groups st.userInfoMap uid m.serverGroupName
        { o with txSucceeds := true } o rfl rfl]
      exact hgrp
    rw [hgrp2]
    dsimp only
    rw [if_pos rfl]

/-- C3 witness: a first-contact call whose transaction fails returns
txFail with nothing persisted and nothing cached; retrying with a
committing transaction returns the new identity 11. -/
theorem C3_provisioning_tx_witness :
    (exOracleFail.txSucceeds = true →
      (Check exState (some ⟨some "sek", some "uu", none, none⟩) "9.9.9.9" exOracleFail).res
        = .ok exOracleFail.nextServerId ∧
      (Check exState (some ⟨some "sek", some "uu", none, none⟩) "9.9.9.9" exOracleFail).st.servers =
        ⟨exOracleFail.nextServerId,
          trimSpace ((some "uu" : Option String).getD ""),
          (if trimSpace ((none : Option String).getD "") = "" then exOracleFail.petname
            else trimSpace ((none : Option String).getD "")), 7⟩ :: exState.servers ∧
      (0 < 0 → (Check exState (some ⟨some "sek", some "uu", none, none⟩) "9.9.9.9"
          exOracleFail).st.memberships = ⟨7, 0, exOracleFail.nextServerId⟩ :: exState.memberships) ∧
      (0 = 0 → (Check exState (some ⟨some "sek", some "uu", none, none⟩) "9.9.9.9"
          exOracleFail).st.memberships = exState.memberships) ∧
      (Check exState (some ⟨some "sek", some "uu", none, none⟩) "9.9.9.9"
          exOracleFail).st.uuidToID =
        (trimSpace ((some "uu" : Option String).getD ""), exOracleFail.nextServerId)
          :: exState.uuidToID) ∧
    (exOracleFail.txSucceeds = false →
      (Check exState (some ⟨some "sek", some "uu", none, none⟩) "9.9.9.9" exOracleFail).res
        = .error .txFail ∧
      (Check exState (some ⟨some "sek", some "uu", none, none⟩) "9.9.9.9"
          exOracleFail).st.servers = exState.servers ∧
      (Check exState (some ⟨some "sek", some "uu", none, none⟩) "9.9.9.9"
          exOracleFail).st.memberships = exState.memberships ∧
      (Check exState (some ⟨some "sek", some "uu", none, none⟩) "9.9.9.9"
          exOracleFail).st.uuidToID = exState.uuidToID ∧
      (Check (Check exState (some ⟨some "sek", some "uu", none, none⟩) "9.9.9.9"
            exOracleFail).st
          (some ⟨some "sek", some "uu", none, none⟩) "9.9.9.9"
          { exOracleFail with txSucceeds := true }).res = .ok exOracleFail.nextServerId) :=
  C3_provisioning_tx exState ⟨some "sek", some "uu", none, none⟩ "9.9.9.9" exOracleFail 7 0
    (by decide) (by decide) (by decide) (by decide) (by decide)

/- ===== C5: group resolution scoping ===== -/

/-- C5: group resolution for a non-empty trimmed name queries the
groups of the requesting account first; a scoped hit resolves regardless of
role; on scoped not-found an administrator retries unscoped (a hit
resolves, a miss is group-not-found, a database error is query-failure)
while an ordinary account fails with not-found-or-no-permission; a
scoped database error other than not-found fails the call; and an
ordinary account can only ever resolve a group it owns. -/
theorem C5_group_scoping (groups : List SGroup) (uim : List (Nat × Role))
    (uid : Nat) (raw : String) (o : Oracle)
    (hne : trimSpace raw ≠ "") :
    (o.scopedDbError = false →
      ∀ g, groups.find? (fun x => x.name == trimSpace raw && x.userId == uid) = some g →
        (resolveGroup groups uim uid (some raw) o).1 = .ok g.id) ∧
    (o.scopedDbError = true →
      (resolveGroup groups uim uid (some raw) o).1 = .error .groupQueryFail) ∧
    (o.scopedDbError = false →
      groups.find? (fun x => x.name == trimSpace raw && x.userId == uid) = none →
      lookupRole uim uid ≠ some .admin →
      (resolveGroup groups uim uid (some raw) o).1 = .error .groupNoPermission) ∧
    (o.scopedDbError = false →
      groups.find? (fun x => x.name == trimSpace raw && x.userId == uid) = none →
      lookupRole uim uid = some .admin →
      o.unscopedDbError = false →
      ((∀ g, groups.find? (fun x => x.name == trimSpace raw) = some g →
          (resolveGroup groups uim uid (some raw) o).1 = .ok g.id) ∧
        (groups.find? (fun x => x.name == trimSpace raw) = none →
          (resolveGroup groups uim uid (some raw) o).1 = .error .groupNotFound))) ∧
    (o.scopedDbError = false →
      groups.find? (fun x => x.name == trimSpace raw && x.userId == uid) = none →
      lookupRole uim uid = some .admin →
      o.unscopedDbError = true →
      (resolveGroup groups uim uid (some raw) o).1 = .error .groupQueryFail) ∧
    (lookupRole uim uid ≠ some .admin →
      ∀ gid, (resolveGroup groups uim uid (some raw) o).1 = .ok gid →
        ∃ g, g ∈ groups ∧ g.id = gid ∧ g.userId = uid) := by
  refine ⟨?_, ?_, ?_, ?_, ?_, ?_⟩
  · intro hdb g hg
    simp [resolveGroup, hne, scopedFirst, hdb, hg]
  · intro hdb
    simp [resolveGroup, hne, scopedFirst, hdb]
  · intro hdb hf hrole
    rcases hr : lookupRole uim uid with _ | role
    · simp [resolveGroup, hne, scopedFirst, hdb, hf, hr]
    · cases role
      · simp [resolveGroup, hne, scopedFirst, hdb, hf, hr]
      · exact absurd hr hrole
  · intro hdb hf hr hudb
    constructor
    · intro g hg
      simp [resolveGroup, hne, scopedFirst, hdb, hf, hr, unscopedFirst, hudb, hg]
    · intro hug
      simp [resolveGroup, hne, scopedFirst, hdb, hf, hr, unscopedFirst, hudb, hug]
  · intro hdb hf hr hudb
    simp [resolveGroup, hne, scopedFirst, hdb, hf, hr, unscopedFirst, hudb]
  · intro hrole gid hok
    cases hdb : o.scopedDbError with
    | true => simp [resolveGroup, hne, scopedFirst, hdb] at hok
    | false =>
      rcases hf : groups.find? (fun x => x.name == trimSpace raw && x.userId == uid)
        with _ | g
      · rcases hr : lookupRole uim uid with _ | role
        · simp [resolveGroup, hne, scopedFirst, hdb, hf, hr] at hok
        · cases role
          · simp [resolveGroup, hne, scopedFirst, hdb, hf, hr] at hok
          · exact absurd hr hrole
      · have hok2 : g.id = gid := by
          simpa [resolveGroup, hne, scopedFirst, hdb, hf] using hok
        have hp := List.find?_some hf
        simp only [Bool.and_eq_true, beq_iff_eq] at hp
        exact ⟨g, List.mem_of_find?_eq_some hf, hok2, hp.2⟩

/-- C5 witness: groups "prod" owned by user 7 and by user 8; the scoped
lookup by user 7 resolves its own group 1; user 9 (ordinary, not in the
role map) cannot resolve it; an administrator (user 5) resolves the
first "prod" group unscoped after a scoped miss. -/
theorem C5_group_scoping_witness :
    (exWitOracle.scopedDbError = false →
      ∀ g, exWitGroups.find? (fun x => x.name == trimSpace "prod" && x.userId == 7) = some g →
        (resolveGroup exWitGroups exWitRoles 7 (some "prod") exWitOracle).1 = .ok g.id) ∧
    (exWitOracle.scopedDbError = true →
      (resolveGroup exWitGroups exWitRoles 7 (some "prod") exWitOracle).1
        = .error .groupQueryFail) ∧
    (exWitOracle.scopedDbError = false →
      exWitGroups.find? (fun x => x.name == trimSpace "prod" && x.userId == 7) = none →
      lookupRole exWitRoles 7 ≠ some .admin →
      (resolveGroup exWitGroups exWitRoles 7 (some "prod") exWitOracle).1
        = .error .groupNoPermission) ∧
    (exWitOracle.scopedDbError = false →
      exWitGroups.find? (fun x => x.name == trimSpace "prod" && x.userId == 7) = none →
      lookupRole exWitRoles 7 = some .admin →
      exWitOracle.unscopedDbError = false →
      ((∀ g, exWitGroups.find? (fun x => x.name == trimSpace "prod") = some g →
          (resolveGroup exWitGroups exWitRoles 7 (some "prod") exWitOracle).1 = .ok g.id) ∧
        (exWitGroups.find? (fun x => x.name == trimSpace "prod") = none →
          (resolveGroup exWitGroups exWitRoles 7 (some "prod") exWitOracle).1
            = .error .groupNotFound))) ∧
    (exWitOracle.scopedDbError = false →
      exWitGroups.find? (fun x => x.name == trimSpace "prod" && x.userId == 7) = none →
      lookupRole exWitRoles 7 = some .admin →
      exWitOracle.unscopedDbError = true →
      (resolveGroup exWitGroups exWitRoles 7 (some "prod") exWitOracle).1
        = .error .groupQueryFail) ∧
    (lookupRole exWitRoles 7 ≠ some .admin →
      ∀ gid, (resolveGroup exWitGroups exWitRoles 7 (some "prod") exWitOracle).1 = .ok gid →
        ∃ g, g ∈ exWitGroups ∧ g.id = gid ∧ g.userId = 7) :=
  C5_group_scoping exWitGroups exWitRoles 7 "prod" exWitOracle (by decide)

/- ===== C6 and C10: UUID validation and metadata trimming ===== -/

theorem check_invalidUUID_iff (st : CheckState) (m : Metadata) (ip : String)
    (o : Oracle) (uid : Nat)
    (hsec : trimSpace (m.clientSecret.getD "") ≠ "")
    (hmap : lookupA st.agentSecretToUserId (trimSpace (m.clientSecret.getD "")) = some uid) :
    ((Check st (some m) ip o).res = .error .invalidUUID ↔
      (trimSpace (m.clientUUID.getD "") = "" ∨
        64 < (trimSpace (m.clientUUID.getD "")).utf8ByteSize)) := by
  unfold Check
  dsimp only
  rw [if_neg hsec, hmap]
  dsimp only
  by_cases hu : trimSpace (m.clientUUID.getD "") = "" ∨
      64 < (trimSpace (m.clientUUID.getD "")).utf8ByteSize
  · rw [if_pos hu]
    simpa using hu
  · rw [if_neg hu]
    refine ⟨fun hres => absurd hres ?_, fun hcontra => absurd hcontra hu⟩
    split
    · simp
    · split
      · rename_i e heq
        have hmem := resolveGroup_error_mem _ _ _ _ _ e heq
        rcases hmem with h1 | h1 | h1 <;> subst h1 <;> simp
      · split
        · simp
        · simp

/-- C6 counterexample: a UUID of 33 CJK characters has character length
33 (within 1..64, and unchanged by trimming) yet authentication rejects
it: the source checks len(clientUUID), the UTF-8 byte count (here 99),
not the character count. -/
theorem C6_counterexample :
    exWideUUID.length = 33 ∧
    trimSpace exWideUUID = exWideUUID ∧
    1 ≤ exWideUUID.length ∧
    exWideUUID.length ≤ 64 ∧
    exWideUUID.utf8ByteSize = 99 ∧
    (Check exState (some ⟨some "sek", some exWideUUID, none, none⟩) "9.9.9.9" exOracle).res
      = .error .invalidUUID := by decide

/-- C6 (amended): after a resolving secret, the call fails with the
invalid-identifier error exactly when the trimmed UUID is empty or its
UTF-8 byte length exceeds 64; every UUID of byte length 1 through 64 is
accepted. For ASCII UUIDs byte length equals character count, so the
boundary cases 0/1/64/65 characters behave as the spec states. -/
theorem C6_uuid_length (st : CheckState) (m : Metadata) (ip : String)
    (o : Oracle) (uid : Nat)
    (hsec : trimSpace (m.clientSecret.getD "") ≠ "")
    (hmap : lookupA st.agentSecretToUserId (trimSpace (m.clientSecret.getD "")) = some uid) :
    ((Check st (some m) ip o).res = .error .invalidUUID ↔
      (trimSpace (m.clientUUID.getD "") = "" ∨
        64 < (trimSpace (m.clientUUID.getD "")).utf8ByteSize)) ∧
    (1 ≤ (trimSpace (m.clientUUID.getD "")).utf8ByteSize →
      (trimSpace (m.clientUUID.getD "")).utf8ByteSize ≤ 64 →
      (Check st (some m) ip o).res ≠ .error .invalidUUID) := by
  have hiff := check_invalidUUID_iff st m ip o uid hsec hmap
  refine ⟨hiff, fun h1 h2 hres => ?_⟩
  rcases hiff.mp hres with h3 | h3
  · rw [h3] at h1
    exact absurd h1 (by decide)
  · omega

/-- C6 witness: ASCII boundary cases — 1 and 64 characters accepted,
0 and 65 rejected. -/
theorem C6_uuid_length_witness :
    (Check exState (some ⟨some "sek", some "a", none, none⟩) "9.9.9.9" exOracle).res
      ≠ .error .invalidUUID ∧
    (Check exState (some ⟨some "sek", some ascii64, none, none⟩) "9.9.9.9" exOracle).res
      ≠ .error .invalidUUID ∧
    (Check exState (some ⟨some "sek", some "", none, none⟩) "9.9.9.9" exOracle).res
      = .error .invalidUUID ∧
    (Check exState (some ⟨some "sek", some ascii65, none, none⟩) "9.9.9.9" exOracle).res
      = .error .invalidUUID := by
  refine ⟨?_, ?_, ?_, ?_⟩
  · exact (C6_uuid_length exState ⟨some "sek", some "a", none, none⟩ "9.9.9.9" exOracle 7
      (by decide) (by decide)).2 (by decide) (by decide)
  · exact (C6_uuid_length exState ⟨some "sek", some ascii64, none, none⟩ "9.9.9.9" exOracle 7
      (by decide) (by decide)).2 (by decide) (by decide)
  · exact (C6_uuid_length exState ⟨some "sek", some "", none, none⟩ "9.9.9.9" exOracle 7
      (by decide) (by decide)).1.mpr (Or.inl (by decide))
  · exact (C6_uuid_length exState ⟨some "sek", some ascii65, none, none⟩ "9.9.9.9" exOracle 7
      (by decide) (by decide)).1.mpr (Or.inr (by decide))

/-- C10: every metadata value is trimmed before validation or use: a
whitespace-only secret ends exactly like an absent one (authFail, no
block, no state change); a whitespace-only UUID is rejected as empty and
the 64-byte limit applies to the trimmed UUID; a whitespace-only group
name is treated as no group; and the call outcome depends on the
server_name value only through its trimmed form. -/
theorem C10_metadata_trim (st : CheckState) (m : Metadata) (ip : String)
    (o : Oracle) (uid : Nat) :
    (trimSpace (m.clientSecret.getD "") = "" →
      Check st (some m) ip o = ⟨.error .authFail, st, []⟩ ∧
      Check st (some ⟨none, m.clientUUID, m.serverName, m.serverGroupName⟩) ip o
        = ⟨.error .authFail, st, []⟩) ∧
    (trimSpace (m.clientSecret.getD "") ≠ "" →
      lookupA st.agentSecretToUserId (trimSpace (m.clientSecret.getD "")) = some uid →
      ((trimSpace (m.clientUUID.getD "") = "" →
          (Check st (some m) ip o).res = .error .invalidUUID) ∧
        ((Check st (some m) ip o).res = .error .invalidUUID ↔
          (trimSpace (m.clientUUID.getD "") = "" ∨
            64 < (trimSpace (m.clientUUID.getD "")).utf8ByteSize)))) ∧
    (∀ ws, trimSpace ws = "" →
      resolveGroup st.groups st.userInfoMap uid (some ws) o = (.ok 0, [])) ∧
    (∀ v1 v2 : Option String, trimSpace (v1.getD "") = trimSpace (v2.getD "") →
      Check st (some ⟨m.clientSecret, m.clientUUID, v1, m.serverGroupName⟩) ip o =
        Check st (some ⟨m.clientSecret, m.clientUUID, v2, m.serverGroupName⟩) ip o) := by
  refine ⟨?_, ?_, ?_, ?_⟩
  · intro hsec
    constructor
    · unfold Check
      dsimp only
      rw [if_pos hsec]
    · rfl
  · intro hsec hmap
    have hiff := check_invalidUUID_iff st m ip o uid hsec hmap
    exact ⟨fun h => hiff.mpr (Or.inl h), hiff⟩
  · intro ws hws
    unfold resolveGroup
    dsimp only
    rw [if_pos hws]
  · intro v1 v2 hv
    unfold Check
    dsimp only
    rw [hv]

/-- C10 witness: whitespace-only secret, whitespace-only UUID,
whitespace-only group name, padded server name. -/
theorem C10_metadata_trim_witness :
    (Check exState (some ⟨some "   ", some "uu", none, none⟩) "9.9.9.9" exOracle
      = ⟨.error .authFail, exState, []⟩) ∧
    (Check exState (some ⟨none, some "uu", none, none⟩) "9.9.9.9" exOracle
      = ⟨.error .authFail, exState, []⟩) ∧
    ((Check exState (some ⟨some " sek ", some "   ", none, none⟩) "9.9.9.9" exOracle).res
      = .error .invalidUUID) ∧
    (resolveGroup exState.groups exState.userInfoMap 7 (some "   ") exOracle = (.ok 0, [])) ∧
    (Check exState (some ⟨some " sek ", some "uu", some "  web  ", none⟩) "9.9.9.9" exOracle =
      Check exState (some ⟨some " sek ", some "uu", some "web", none⟩) "9.9.9.9" exOracle) := by
  have h1 := C10_metadata_trim exState ⟨some "   ", some "uu", none, none⟩ "9.9.9.9" exOracle 7
  have h2 := C10_metadata_trim exState ⟨some " sek ", some "   ", none, none⟩ "9.9.9.9" exOracle 7
  have h3 := C10_metadata_trim exState ⟨some " sek ", some "uu", none, none⟩ "9.9.9.9" exOracle 7
  refine ⟨(h1.1 (by decide)).1, (h1.1 (by decide)).2, ?_, h1.2.2.1 "   " (by decide), ?_⟩
  · exact (h2.2.1 (by decide) (by decide)).1 (by decide)
  · exact h3.2.2.2 (some "  web  ") (some "web") (by decide)
